import Mathlib

/-
Verification of the pymeasure HP legacy-instrument property layer.

The repository declares two instrument classes (`HP5384A`, `HP8350X`) as
tables of property descriptors built by the `HPLegacyInstrument`
`control` / `setting` / `measurement` factories, on top of a line-based
transport.  The per-instrument tables (mappings, command templates,
validators, `set_process` / `get_process` lambdas, enums) are embedded
directly from `src/pymeasure/instruments/hp/hp5384A.py` and
`src/pymeasure/instruments/hp/hp8350X.py`.  The factory machinery, the
`strict_discrete_set` validator and the transport adapter are part of the
repository but their source files are not available here; those parts are
modelled from the specification (each such definition carries a doc
comment starting `Modelled from the spec:`).
-/

set_option autoImplicit false

namespace PyMeasure

/-- Enum `HP8350X.LevelingMode` from hp8350X.py lines 57-60. -/
inductive LevelingMode where
  | Internal
  | ExternalCrystal
  | ExternalPowerMeter
deriving DecidableEq, Repr

/-- Integer value of each `LevelingMode` member (IntEnum values 1, 2, 3). -/
def LevelingMode.value : LevelingMode → Int
  | .Internal => 1
  | .ExternalCrystal => 2
  | .ExternalPowerMeter => 3

/-- The IntEnum constructor `LevelingMode(n)`: the member with value `n`,
or a `ValueError` when no member has that value. -/
def LevelingMode.ofInt (n : Int) : Option LevelingMode :=
  if n = 1 then some .Internal
  else if n = 2 then some .ExternalCrystal
  else if n = 3 then some .ExternalPowerMeter
  else none

/-- Enum `HP8350X.FMSensitivity` from hp8350X.py lines 62-64. -/
inductive FMSensitivity where
  | Neg20
  | Neg6
deriving DecidableEq, Repr

/-- Integer value of each `FMSensitivity` member (IntEnum values -20, -6). -/
def FMSensitivity.value : FMSensitivity → Int
  | .Neg20 => -20
  | .Neg6 => -6

/-- The IntEnum constructor `FMSensitivity(n)`. -/
def FMSensitivity.ofInt (n : Int) : Option FMSensitivity :=
  if n = -20 then some .Neg20
  else if n = -6 then some .Neg6
  else none

/-- A dynamically typed Python value, restricted to the types the
instrument declarations actually traffic in: booleans, integers, strings
and the two IntEnum types of HP8350X. -/
inductive PyVal where
  | bool (b : Bool)
  | int (n : Int)
  | str (s : String)
  | lvl (m : LevelingMode)
  | fms (m : FMSensitivity)
deriving DecidableEq, Repr

/-- Numeric view of a `PyVal`: Python treats `bool` as a subtype of `int`
(`True == 1`) and an `IntEnum` member compares equal to its value. -/
def PyVal.toIntVal : PyVal → Option Int
  | .bool b => some (if b then 1 else 0)
  | .int n => some n
  | .lvl m => some m.value
  | .fms m => some m.value
  | .str _ => none

/-- Python `==` on the embedded value type: numeric values compare by
their integer value (so `True == 1`), strings by content, and a string
never equals a number. -/
def pyEq (a b : PyVal) : Bool :=
  match a.toIntVal, b.toIntVal with
  | some x, some y => x = y
  | _, _ =>
    match a, b with
    | .str s, .str t => s = t
    | _, _ => false

/-- Rendering of a value substituted into a command template: integers and
enum members print as their decimal value, strings as themselves. -/
def PyVal.render : PyVal → String
  | .bool b => if b then "True" else "False"
  | .int n => toString n
  | .str s => s
  | .lvl m => toString m.value
  | .fms m => toString m.value

/-- The error taxonomy of spec section 7 plus the Python-level errors the
embedded lambdas can raise (`ValueError` from an IntEnum constructor,
`KeyError` from a mapping lookup, `TypeError` from a wrongly typed
transform argument). -/
inductive PyError where
  | validationError
  | communicationError
  | keyError
  | typeError
  | valueError
deriving DecidableEq, Repr

/-- Substitute `s` for the first `%s` / `%d` slot of a character list. -/
def substSlot (s : List Char) : List Char → List Char
  | '%' :: c :: rest =>
    if c = 's' ∨ c = 'd' then s ++ rest else '%' :: c :: substSlot s rest
  | c :: rest => c :: substSlot s rest
  | [] => []

/-- Modelled from the spec: command formatting (`set_command % value`,
spec section 4.1) "substitute into `set_command`'s single format slot";
the rendered value replaces the template's one insertion point. -/
def pyFormat (template : String) (v : PyVal) : String :=
  ⟨substSlot v.render.data template.data⟩

/-- Python slicing `s[0:n]` on a string: the first `n` characters. -/
def pySlice (s : String) (n : Nat) : String :=
  ⟨s.data.take n⟩

/-- Python `str.upper` on the ASCII strings the instruments display. -/
def pyUpper (s : String) : String :=
  ⟨s.data.map Char.toUpper⟩

/-- Characters of `raw` before the first occurrence of the terminator
sequence `term` (all of `raw` if the terminator never occurs). -/
def takeUntilTerm (term : List Char) : List Char → List Char
  | [] => []
  | c :: cs => if term.isPrefixOf (c :: cs) then [] else c :: takeUntilTerm term cs

/-- Modelled from the spec: the transport's `read() -> text` "reads until
configured line terminator"; one raw reply line is cut at the first
occurrence of the read terminator. -/
def readLine (raw term : String) : String :=
  ⟨takeUntilTerm term.data raw.data⟩

/-- Modelled from the spec: the transport capability of spec section 6,
which is consumed, not implemented, by the repository.  `written` records
every transmitted line (terminator included), `replies` holds the raw
fixture reply lines still to be read. -/
structure Transport where
  written : List String
  replies : List String
  write_termination : String
  read_termination : String
deriving DecidableEq, Repr

/-- Modelled from the spec: `write(text)` sends the text followed by the
configured write terminator. -/
def Transport.write (st : Transport) (cmd : String) : Transport :=
  ⟨st.written ++ [cmd ++ st.write_termination], st.replies,
   st.write_termination, st.read_termination⟩

/-- Modelled from the spec: a `PropertySpec` (spec section 3) — the
declarative descriptor produced by the `measurement` / `setting` /
`control` factories of `HPLegacyInstrument`, whose source is not
available here.  `validator_values` is the allowed discrete set handed to
`strict_discrete_set` (`none` when the declaration has no validator);
`mapping` is the `values` mapping used when `map_values` is true. -/
structure PropertySpec where
  get_command : String
  set_command : String
  validator_values : Option (List PyVal)
  map_values : Bool
  mapping : List (PyVal × PyVal)
  set_process : PyVal → Except PyError PyVal
  get_process : String → Except PyError PyVal

/-- The default identity `set_process`. -/
def idSetProcess : PyVal → Except PyError PyVal := fun v => .ok v

/-- The default `get_process`: the reply line is returned unchanged. -/
def idGetProcess : String → Except PyError PyVal := fun s => .ok (.str s)

/-- Modelled from the spec: the `strict_discrete_set` validator
(spec section 4.1): "value must equal (using ordinary equality) one
member of the allowed set/mapping keys; anything else fails validation". -/
def strict_discrete_set (v : PyVal) (vals : List PyVal) : Except PyError PyVal :=
  if vals.any (fun m => pyEq v m) then .ok v else .error .validationError

/-- Python mapping lookup `values[v]` by `==` on the keys. -/
def mapLookup (m : List (PyVal × PyVal)) (v : PyVal) : Option PyVal :=
  match m.find? (fun p => pyEq v p.1) with
  | some p => some p.2
  | none => none

/-- Reverse mapping lookup: the key of the first entry whose wire token
equals `w` (the inverse map a `map_values` property decodes through). -/
def mapReverseLookup (m : List (PyVal × PyVal)) (w : PyVal) : Option PyVal :=
  match m.find? (fun p => pyEq w p.2) with
  | some p => some p.1
  | none => none

/-- Stage of property assignment after validation succeeded: map the
value through the mapping when `map_values` is set, apply `set_process`,
format into the `set_command` template and transmit. -/
def setValidated (spec : PropertySpec) (st : Transport) (v : PyVal) :
    Option PyError × Transport :=
  let mv := if spec.map_values then mapLookup spec.mapping v else some v
  match mv with
  | none => (some .keyError, st)
  | some w =>
    match spec.set_process w with
    | .error e => (some e, st)
    | .ok pv => (none, st.write (pyFormat spec.set_command pv))

/-- Modelled from the spec: property assignment (spec section 4.1
`setting` / the write half of `control`): validate first — "validation
happens strictly before any bytes are sent" — then map, transform,
format, transmit.  On an error the transport is returned unchanged. -/
def set_property (spec : PropertySpec) (st : Transport) (v : PyVal) :
    Option PyError × Transport :=
  match spec.validator_values with
  | some vals =>
    match strict_discrete_set v vals with
    | .error e => (some e, st)
    | .ok v1 => setValidated spec st v1
  | none => setValidated spec st v

/-- Consume one raw reply line from the transport and run `get_process`
on it; a missing reply is a transport timeout
(`InstrumentCommunicationError`). -/
def readReply (spec : PropertySpec) (st1 : Transport) :
    Except PyError (PyVal × Transport) :=
  match st1.replies with
  | [] => .error .communicationError
  | raw :: rest =>
    match spec.get_process (readLine raw st1.read_termination) with
    | .error e => .error e
    | .ok v =>
      .ok (v, ⟨st1.written, rest, st1.write_termination, st1.read_termination⟩)

/-- Modelled from the spec: property read (spec section 4.1
`measurement` / the read half of `control`): "if `get_command` is
non-empty, send it to the transport, read one reply line, apply
`get_process`, return the result". -/
def get_property (spec : PropertySpec) (st : Transport) :
    Except PyError (PyVal × Transport) :=
  readReply spec (if spec.get_command = "" then st else st.write spec.get_command)

/-- `HP5384A.FUNCTIONS` from hp5384A.py lines 55-59: the measurement
function mapping. -/
def HP5384A.FUNCTIONS : List (PyVal × PyVal) :=
  [(.str "freq_a", .str "FU1"),
   (.str "period_a", .str "FU2"),
   (.str "freq_b", .str "FU3")]

/-- `HP5384A.display_text` from hp5384A.py lines 61-67: a `setting` with
command `"DR%s"` and `set_process = lambda x: str.upper(x[0:20])`. -/
def HP5384A.display_text : PropertySpec :=
  { get_command := ""
    set_command := "DR%s"
    validator_values := none
    map_values := false
    mapping := []
    set_process := fun v =>
      match v with
      | .str s => .ok (.str (pyUpper (pySlice s 20)))
      | _ => .error .typeError
    get_process := idGetProcess }

/-- `HP5384A.value_` from hp5384A.py lines 69-74: a `measurement` whose
`get_command` is the empty string. -/
def HP5384A.value_ : PropertySpec :=
  { get_command := ""
    set_command := ""
    validator_values := none
    map_values := false
    mapping := []
    set_process := idSetProcess
    get_process := idGetProcess }

/-- `HP5384A.function` from hp5384A.py lines 76-86: a `setting` with
command `"%s"`, `strict_discrete_set` validator over `FUNCTIONS` and
`map_values=True`. -/
def HP5384A.function : PropertySpec :=
  { get_command := ""
    set_command := "%s"
    validator_values := some (HP5384A.FUNCTIONS.map Prod.fst)
    map_values := true
    mapping := HP5384A.FUNCTIONS
    set_process := idSetProcess
    get_process := idGetProcess }

/-- `HP5384A.instrument_id` from hp5384A.py lines 90-95: a `measurement`
with `get_command = "ID"`. -/
def HP5384A.instrument_id : PropertySpec :=
  { get_command := "ID"
    set_command := ""
    validator_values := none
    map_values := false
    mapping := []
    set_process := idSetProcess
    get_process := idGetProcess }

/-- `HP8350X.BOOL_MAPPINGS` from hp8350X.py line 55: `{True: 1, False: 0}`. -/
def HP8350X.BOOL_MAPPINGS : List (PyVal × PyVal) :=
  [(.bool true, .int 1), (.bool false, .int 0)]

/-- `HP8350X.amplitude_marker_enabled` from hp8350X.py lines 82-91: a
`control` with `get_command "OPAK"`, `set_command "AK%d"`,
`strict_discrete_set` over `BOOL_MAPPINGS` and `map_values=True`. -/
def HP8350X.amplitude_marker_enabled : PropertySpec :=
  { get_command := "OPAK"
    set_command := "AK%d"
    validator_values := some (HP8350X.BOOL_MAPPINGS.map Prod.fst)
    map_values := true
    mapping := HP8350X.BOOL_MAPPINGS
    set_process := idSetProcess
    get_process := idGetProcess }

/-- Decimal value of one digit character. -/
def digitVal (c : Char) : Option Nat :=
  if c.isDigit then some (c.toNat - 48) else none

/-- Accumulate decimal digits; `none` on a non-digit character. -/
def digitsAux : List Char → Nat → Option Nat
  | [], acc => some acc
  | c :: cs, acc =>
    match digitVal c with
    | some d => digitsAux cs (acc * 10 + d)
    | none => none

/-- Decimal value of a non-empty digit string. -/
def digitsToNat : List Char → Option Nat
  | [] => none
  | cs => digitsAux cs 0

/-- Python `int(...)` applied to a reply line: an optional minus sign
followed by decimal digits; anything else raises `ValueError`. -/
def parseIntLine (s : String) : Option Int :=
  match s.data with
  | '-' :: cs => (digitsToNat cs).map (fun n => -(n : Int))
  | cs => (digitsToNat cs).map (fun n => (n : Int))

/-- Python `int(x)` on the embedded value type: the identity on integers,
`0` / `1` on booleans, decimal parsing on strings (raising `ValueError`
when the string is not a number), and the value of an IntEnum member. -/
def pyToInt (v : PyVal) : Except PyError Int :=
  match v with
  | .int n => .ok n
  | .bool b => .ok (if b then 1 else 0)
  | .lvl m => .ok m.value
  | .fms m => .ok m.value
  | .str s =>
    match parseIntLine s with
    | some n => .ok n
    | none => .error .valueError

/-- The `set_process` lambda shared by the HP8350X frequency controls:
`lambda x: f"{int(x)}HZ"`. -/
def hzSetProcess : PyVal → Except PyError PyVal := fun v =>
  match pyToInt v with
  | .ok n => .ok (.str (toString n ++ "HZ"))
  | .error e => .error e

/-- `HP8350X.center_frequency` from hp8350X.py lines 130-138: a `control`
with `get_command "OPCF"`, `set_command "CF %d"`, no validator and
`set_process = lambda x: f"{int(x)}HZ"`. -/
def HP8350X.center_frequency : PropertySpec :=
  { get_command := "OPCF"
    set_command := "CF %d"
    validator_values := none
    map_values := false
    mapping := []
    set_process := hzSetProcess
    get_process := idGetProcess }

/-- `HP8350X.leveling_mode` from hp8350X.py lines 93-102: a `control`
with `get_command "OPA"`, `set_command "A%d"`, `strict_discrete_set` over
the `LevelingMode` values and `get_process = lambda x: LevelingMode(x)`
(the reply line is parsed numerically before the enum constructor, which
raises `ValueError` on a value with no enum member). -/
def HP8350X.leveling_mode : PropertySpec :=
  { get_command := "OPA"
    set_command := "A%d"
    validator_values := some [.int 1, .int 2, .int 3]
    map_values := false
    mapping := []
    set_process := idSetProcess
    get_process := fun s =>
      match parseIntLine s with
      | none => .error .valueError
      | some n =>
        match LevelingMode.ofInt n with
        | some m => .ok (.lvl m)
        | none => .error .valueError }

/-- `HP8350X.fm_sensitivity` from hp8350X.py lines 203-213: a `control`
with `get_command "OPF"`, `set_command "F%d"`, `strict_discrete_set` over
the `FMSensitivity` values and `get_process = lambda x: FMSensitivity(x)`. -/
def HP8350X.fm_sensitivity : PropertySpec :=
  { get_command := "OPF"
    set_command := "F%d"
    validator_values := some [.int (-20), .int (-6)]
    map_values := false
    mapping := []
    set_process := idSetProcess
    get_process := fun s =>
      match parseIntLine s with
      | none => .error .valueError
      | some n =>
        match FMSensitivity.ofInt n with
        | some m => .ok (.fms m)
        | none => .error .valueError }

/-- The remaining `map_values=True` boolean controls of HP8350X
(hp8350X.py lines 104-126, 149-169, 191-201, 215-236), which all share
`BOOL_MAPPINGS`, a `strict_discrete_set` validator over its keys and a
`"<prefix>%d"` set command. -/
def HP8350X.boolControl (getCmd setCmd : String) : PropertySpec :=
  { get_command := getCmd
    set_command := setCmd
    validator_values := some (HP8350X.BOOL_MAPPINGS.map Prod.fst)
    map_values := true
    mapping := HP8350X.BOOL_MAPPINGS
    set_process := idSetProcess
    get_process := idGetProcess }

/-- Every `map_values=True` property declared by the two instrument
classes, with its mapping (hp5384A.py `function`; hp8350X.py
`amplitude_marker_enabled`, `amplitude_crystal_marker_enabled`,
`intensity_crystal_marker_enabled`, `display_blanking_enabled`,
`display_update_enabled`, `cw_filter_enabled`, `am_enabled`,
`marker_1_2_sweep_enabled`). -/
def allMapValuesSpecs : List PropertySpec :=
  [HP5384A.function,
   HP8350X.amplitude_marker_enabled,
   HP8350X.boolControl "OPCA" "CA%d",
   HP8350X.boolControl "OPCI" "CI%d",
   HP8350X.boolControl "OPDP" "DP%d",
   HP8350X.boolControl "OPDU" "DU%d",
   HP8350X.boolControl "OPFI" "FI%d",
   HP8350X.boolControl "OPMD" "MD%d",
   HP8350X.boolControl "OPMP" "MP%d"]

/-- Bytes of an ASCII string, for the transport-level byte reads. -/
def strBytes (s : String) : List Nat :=
  s.data.map Char.toNat

/-- Bytes of `buf` up to and including the first occurrence of the
terminator byte `term` (all of `buf` when it never occurs). -/
def takeThroughTerm (term : Nat) : List Nat → List Nat
  | [] => []
  | b :: bs => if b = term then [b] else b :: takeThroughTerm term bs

/-- Modelled from the spec: the VISA adapter's `read_bytes(count,
break_on_termchar)` (spec section 6); its implementation is not under
src/, so the behaviour follows the spec together with the
`TestReadBytes` fixtures of src/tests/adapters/test_visa.py: a
non-negative `count` reads that many bytes, `count < 0` without
break-on-termchar reads everything available, and break-on-termchar
stops at the terminator byte (also for non-negative `count`, per
`test_read_break_on_termchar`). -/
def read_bytes (buf : List Nat) (term : Nat) (count : Int)
    (break_on_termchar : Bool) : List Nat :=
  if break_on_termchar then
    if 0 ≤ count then (takeThroughTerm term buf).take count.toNat
    else takeThroughTerm term buf
  else
    if 0 ≤ count then buf.take count.toNat
    else buf

/-- A fresh transport configured as the HP instruments' `__init__`
configures theirs (`read_termination = "\r\n"`), used to instantiate the
universally quantified theorems at a concrete connection. -/
def t0 : Transport :=
  ⟨[], [], "\r\n", "\r\n"⟩

/- ------------------------------------------------------------------ -/
/- Helper lemmas -/

theorem leveling_get_process_ok (s : String) (v : PyVal)
    (h : HP8350X.leveling_mode.get_process s = .ok v) :
    ∃ m : LevelingMode, v = .lvl m := by
  simp only [HP8350X.leveling_mode] at h
  cases hs : parseIntLine s with
  | none => rw [hs] at h; simp at h
  | some n =>
    rw [hs] at h
    have h2 : (match LevelingMode.ofInt n with
      | some m => Except.ok (PyVal.lvl m)
      | none => Except.error PyError.valueError) = Except.ok v := h
    cases hm : LevelingMode.ofInt n with
    | none => rw [hm] at h2; simp at h2
    | some m =>
      rw [hm] at h2
      simp at h2
      exact ⟨m, h2.symm⟩

theorem fm_get_process_ok (s : String) (v : PyVal)
    (h : HP8350X.fm_sensitivity.get_process s = .ok v) :
    ∃ m : FMSensitivity, v = .fms m := by
  simp only [HP8350X.fm_sensitivity] at h
  cases hs : parseIntLine s with
  | none => rw [hs] at h; simp at h
  | some n =>
    rw [hs] at h
    have h2 : (match FMSensitivity.ofInt n with
      | some m => Except.ok (PyVal.fms m)
      | none => Except.error PyError.valueError) = Except.ok v := h
    cases hm : FMSensitivity.ofInt n with
    | none => rw [hm] at h2; simp at h2
    | some m =>
      rw [hm] at h2
      simp at h2
      exact ⟨m, h2.symm⟩

/- ------------------------------------------------------------------ -/
/- Claim theorems -/

/-- C1: for every value `v` not equal to any member of a property's
declared allowed set, assigning `v` raises `ValidationError` and performs
zero transport writes — the transport state is exactly as it was before
the assignment. -/
theorem C1_rejection_invariant (spec : PropertySpec) (st : Transport)
    (v : PyVal) (vals : List PyVal)
    (hvals : spec.validator_values = some vals)
    (hout : ∀ m ∈ vals, pyEq v m = false) :
    set_property spec st v = (some .validationError, st) := by
  have hany : vals.any (fun m => pyEq v m) = false := by
    rw [List.any_eq_false]
    intro m hm
    simp [hout m hm]
  simp [set_property, hvals, strict_discrete_set, hany]

/-- Witness for C1 at the HP5384A `function` property and the value
`"bogus"`, which is none of `freq_a` / `period_a` / `freq_b`. -/
theorem C1_witness :
    set_property HP5384A.function t0 (.str "bogus") =
      (some .validationError, t0) :=
  C1_rejection_invariant HP5384A.function t0 (.str "bogus")
    (HP5384A.FUNCTIONS.map Prod.fst) rfl (by decide)

/-- C2: setting `center_frequency = 1000000` on the HP8350X transmits
exactly one command, the literal text `"CF 1000000HZ"` followed by the
configured write terminator, and nothing else: the `set_process`
transform (appending the `HZ` unit token) composes with the `"CF %d"`
template to produce exactly that string. -/
theorem C2_center_frequency_formatting (st : Transport) :
    set_property HP8350X.center_frequency st (.int 1000000) =
      (none, ⟨st.written ++ ["CF 1000000HZ" ++ st.write_termination],
              st.replies, st.write_termination, st.read_termination⟩) :=
  rfl

/-- C3: reading `instrument_id` on the HP5384A writes exactly `"ID"` plus
the configured write terminator, and with the fixture reply line
`"HP5384A\r\n"` under read termination `"\r\n"` it returns the string
`"HP5384A"` with the terminator stripped and no further transformation. -/
theorem C3_instrument_id_read (w rest' : List String) (wt : String) :
    get_property HP5384A.instrument_id ⟨w, "HP5384A\r\n" :: rest', wt, "\r\n"⟩ =
      .ok (.str "HP5384A", ⟨w ++ ["ID" ++ wt], rest', wt, "\r\n"⟩) :=
  rfl

/-- C4: assigning `True` to `amplitude_marker_enabled` sends exactly
`"AK1"` plus the configured terminator, and `False` sends exactly
`"AK0"` plus the terminator: the validated logical value is replaced by
its wire token from `BOOL_MAPPINGS` before formatting into `"AK%d"`. -/
theorem C4_amplitude_marker_mapped (st : Transport) :
    set_property HP8350X.amplitude_marker_enabled st (.bool true) =
      (none, ⟨st.written ++ ["AK1" ++ st.write_termination],
              st.replies, st.write_termination, st.read_termination⟩)
    ∧ set_property HP8350X.amplitude_marker_enabled st (.bool false) =
      (none, ⟨st.written ++ ["AK0" ++ st.write_termination],
              st.replies, st.write_termination, st.read_termination⟩) :=
  ⟨rfl, rfl⟩

/-- C5: `strict_discrete_set` accepts a value if and only if it equals
(by ordinary, Python-style equality) some member of the declared values
collection; and when the values collection is a mapping's key set, every
value that passes validation has a defined lookup in the mapping, so the
missing-key branch is unreachable after a successful validation. -/
theorem C5_strict_discrete_set_accepts (v : PyVal) (vals : List PyVal)
    (m : List (PyVal × PyVal)) :
    (strict_discrete_set v vals = .ok v ↔ ∃ u ∈ vals, pyEq v u = true)
    ∧ (strict_discrete_set v (m.map Prod.fst) = .ok v →
        (mapLookup m v).isSome = true) := by
  constructor
  · constructor
    · intro h
      by_cases hc : vals.any (fun u => pyEq v u) = true
      · rw [List.any_eq_true] at hc
        exact hc
      · simp [strict_discrete_set, hc] at h
    · intro hex
      have hc : vals.any (fun u => pyEq v u) = true :=
        List.any_eq_true.mpr hex
      simp [strict_discrete_set, hc]
  · intro h
    by_cases hc : (m.map Prod.fst).any (fun u => pyEq v u) = true
    · rw [List.any_eq_true] at hc
      obtain ⟨u, hu, hequ⟩ := hc
      rw [List.mem_map] at hu
      obtain ⟨p, hp, hpu⟩ := hu
      have hfind : (m.find? (fun q => pyEq v q.1)).isSome = true := by
        rw [List.find?_isSome]
        exact ⟨p, hp, by rw [hpu]; exact hequ⟩
      unfold mapLookup
      cases hfound : m.find? (fun q => pyEq v q.1) with
      | none => rw [hfound] at hfind; simp at hfind
      | some p2 => rfl
    · simp [strict_discrete_set, hc] at h

/-- Witness for C5 at the HP5384A `FUNCTIONS` mapping: `"freq_a"` passes
validation against the key set, so its mapping lookup is defined. -/
theorem C5_witness :
    (mapLookup HP5384A.FUNCTIONS (.str "freq_a")).isSome = true :=
  (C5_strict_discrete_set_accepts (.str "freq_a") [] HP5384A.FUNCTIONS).2 rfl

/-- C6: for the injective value mappings of the declared
`map_values=True` properties (`HP8350X.BOOL_MAPPINGS` and
`HP5384A.FUNCTIONS`), encoding any key of the mapping to its wire token
and then decoding that token back through the inverse mapping yields the
original logical value. -/
theorem C6_mapping_roundtrip (k : PyVal) :
    (k ∈ HP8350X.BOOL_MAPPINGS.map Prod.fst →
      (mapLookup HP8350X.BOOL_MAPPINGS k).bind
        (mapReverseLookup HP8350X.BOOL_MAPPINGS) = some k)
    ∧ (k ∈ HP5384A.FUNCTIONS.map Prod.fst →
      (mapLookup HP5384A.FUNCTIONS k).bind
        (mapReverseLookup HP5384A.FUNCTIONS) = some k) := by
  constructor
  · intro hk
    have hcase : k = .bool true ∨ k = .bool false := by
      simpa [HP8350X.BOOL_MAPPINGS] using hk
    rcases hcase with h | h <;> subst h <;> rfl
  · intro hk
    have hcase : k = .str "freq_a" ∨ k = .str "period_a" ∨ k = .str "freq_b" := by
      simpa [HP5384A.FUNCTIONS] using hk
    rcases hcase with h | h | h <;> subst h <;> rfl

/-- Witness for C6 at the key `True` of `BOOL_MAPPINGS`: encode to `1`,
decode back to `True`. -/
theorem C6_witness :
    (mapLookup HP8350X.BOOL_MAPPINGS (.bool true)).bind
      (mapReverseLookup HP8350X.BOOL_MAPPINGS) = some (.bool true) :=
  (C6_mapping_roundtrip (.bool true)).1 (by decide)

/-- C7: reading the HP5384A `value_` property, whose `get_command` is the
empty string, performs no transport write: it reads exactly one reply
line, applies `get_process`, and returns the result; reading
`instrument_id`, whose `get_command` is non-empty, transmits the command
before the read. -/
theorem C7_empty_get_command (w : List String) (r : String)
    (rest' : List String) (wt rdt : String) :
    get_property HP5384A.value_ ⟨w, r :: rest', wt, rdt⟩ =
      .ok (.str (readLine r rdt), ⟨w, rest', wt, rdt⟩)
    ∧ get_property HP5384A.instrument_id ⟨w, r :: rest', wt, rdt⟩ =
      .ok (.str (readLine r rdt), ⟨w ++ ["ID" ++ wt], rest', wt, rdt⟩) :=
  ⟨rfl, rfl⟩

/-- C8 counterexample: on the fixture buffer of
`TestReadBytes.test_read_break_on_termchar` (bytes of
`"SCPI,MOCK,VERSION_1.0\n"`, terminator `','` = byte 44), the call
`read_bytes(7, break_on_termchar=True)` returns the 5 bytes `b"SCPI,"`,
so for the non-negative count 7 the result length is not 7: reading does
stop at the terminator for a non-negative count when break-on-terminator
is requested, contradicting the claim. -/
theorem C8_counterexample :
    (read_bytes (strBytes "SCPI,MOCK,VERSION_1.0\n") 44 7 true).length ≠ 7 := by
  decide

/-- C8 (amended): `read_bytes(count)` reads exactly `count` bytes when
`count` is non-negative and break-on-terminator is not requested;
`read_bytes(-1)` without break-on-terminator reads the whole buffer and
does not stop at the terminator; when break-on-terminator is requested
the read stops at the terminator byte for any count — until the
terminator for a negative count, and up to `count` bytes otherwise. -/
theorem C8_read_bytes_amended (buf : List Nat) (term : Nat) (count : Int) :
    (0 ≤ count → count.toNat ≤ buf.length →
      (read_bytes buf term count false).length = count.toNat)
    ∧ read_bytes buf term (-1) false = buf
    ∧ (0 ≤ count →
      read_bytes buf term count true = (takeThroughTerm term buf).take count.toNat)
    ∧ read_bytes buf term (-1) true = takeThroughTerm term buf := by
  have hneg : ¬((0 : Int) ≤ -1) := by decide
  refine ⟨?_, ?_, ?_, ?_⟩
  · intro h hlen
    simp [read_bytes, h, List.length_take, Nat.min_eq_left hlen]
  · simp [read_bytes, hneg]
  · intro h
    simp [read_bytes, h]
  · simp [read_bytes, hneg]

/-- Witness for C8 (amended) at the `test_read_bytes` fixture: a count of
22 without break-on-terminator reads exactly 22 bytes. -/
theorem C8_witness :
    (read_bytes (strBytes "SCPI,MOCK,VERSION_1.0\n") 44 22 false).length =
      (22 : Int).toNat :=
  (C8_read_bytes_amended (strBytes "SCPI,MOCK,VERSION_1.0\n") 44 22).1
    (by decide) (by decide)

/-- C9: assigning a string `s` to `HP5384A.display_text` transmits `"DR"`
followed by the uppercase form of the first 20 characters of `s` (the
`set_process` truncates to `s[0:20]` and uppercases before substitution
into `"DR%s"`); for `s` of length at most 20 the transmitted payload is
exactly `upper(s)`, and characters beyond index 20 are never
transmitted. -/
theorem C9_display_text_truncation (st : Transport) (s : String) :
    set_property HP5384A.display_text st (.str s) =
      (none, ⟨st.written ++ [("DR" ++ pyUpper (pySlice s 20)) ++ st.write_termination],
              st.replies, st.write_termination, st.read_termination⟩)
    ∧ (s.length ≤ 20 → pyUpper (pySlice s 20) = pyUpper s) := by
  have hfmt : ∀ u : String, pyFormat "DR%s" (.str u) = "DR" ++ u := by
    intro u
    show String.mk ('D' :: 'R' :: (u.data ++ [])) = "DR" ++ u
    rw [List.append_nil]
    rfl
  constructor
  · calc set_property HP5384A.display_text st (.str s)
        = (none, st.write (pyFormat "DR%s" (.str (pyUpper (pySlice s 20))))) := rfl
      _ = (none, st.write ("DR" ++ pyUpper (pySlice s 20))) := by
          rw [hfmt]
      _ = (none, ⟨st.written ++ [("DR" ++ pyUpper (pySlice s 20)) ++ st.write_termination],
                  st.replies, st.write_termination, st.read_termination⟩) := rfl
  · intro h
    have hd : s.data.length ≤ 20 := h
    show String.mk ((s.data.take 20).map Char.toUpper) =
      String.mk (s.data.map Char.toUpper)
    rw [List.take_of_length_le hd]

/-- Witness for C9 at `"hello"`, a string of length at most 20. -/
theorem C9_witness : pyUpper (pySlice "hello" 20) = pyUpper "hello" :=
  (C9_display_text_truncation t0 "hello").2 (by decide)

/-- C10: reading an enum-interpreted control raises instead of returning
an out-of-range value: for `HP8350X.leveling_mode` a numeric reply not in
{1, 2, 3} makes `get_process` (the `LevelingMode` constructor) raise
`ValueError`, for `HP8350X.fm_sensitivity` a reply not in {-20, -6} makes
the `FMSensitivity` constructor raise, and a successfully returned value
is always a member of the corresponding enum. -/
theorem C10_enum_get_raises (s : String) (n : Int) :
    (parseIntLine s = some n → n ≠ 1 → n ≠ 2 → n ≠ 3 →
      HP8350X.leveling_mode.get_process s = .error .valueError)
    ∧ (parseIntLine s = some n → n ≠ -20 → n ≠ -6 →
      HP8350X.fm_sensitivity.get_process s = .error .valueError)
    ∧ (∀ v : PyVal, HP8350X.leveling_mode.get_process s = .ok v →
        ∃ m : LevelingMode, v = .lvl m)
    ∧ (∀ v : PyVal, HP8350X.fm_sensitivity.get_process s = .ok v →
        ∃ m : FMSensitivity, v = .fms m)
    ∧ (∀ (t t2 : Transport) (v : PyVal),
        get_property HP8350X.leveling_mode t = .ok (v, t2) →
        ∃ m : LevelingMode, v = .lvl m) := by
  refine ⟨?_, ?_, fun v h => leveling_get_process_ok s v h,
    fun v h => fm_get_process_ok s v h, ?_⟩
  · intro hp h1 h2 h3
    have hg : HP8350X.leveling_mode.get_process s =
      (match parseIntLine s with
       | none => Except.error PyError.valueError
       | some k =>
         match LevelingMode.ofInt k with
         | some m => Except.ok (PyVal.lvl m)
         | none => Except.error PyError.valueError) := rfl
    rw [hg, hp]
    have hofInt : LevelingMode.ofInt n = none := by
      unfold LevelingMode.ofInt
      simp [h1, h2, h3]
    show (match LevelingMode.ofInt n with
       | some m => Except.ok (PyVal.lvl m)
       | none => Except.error PyError.valueError) = Except.error PyError.valueError
    rw [hofInt]
  · intro hp h1 h2
    have hg : HP8350X.fm_sensitivity.get_process s =
      (match parseIntLine s with
       | none => Except.error PyError.valueError
       | some k =>
         match FMSensitivity.ofInt k with
         | some m => Except.ok (PyVal.fms m)
         | none => Except.error PyError.valueError) := rfl
    rw [hg, hp]
    have hofInt : FMSensitivity.ofInt n = none := by
      unfold FMSensitivity.ofInt
      simp [h1, h2]
    show (match FMSensitivity.ofInt n with
       | some m => Except.ok (PyVal.fms m)
       | none => Except.error PyError.valueError) = Except.error PyError.valueError
    rw [hofInt]
  · intro t t2 v h
    obtain ⟨tw, trep, twt, trdt⟩ := t
    cases trep with
    | nil =>
      have h2 : (Except.error PyError.communicationError :
          Except PyError (PyVal × Transport)) = .ok (v, t2) := h
      simp at h2
    | cons raw rest2 =>
      have h2 : (match HP8350X.leveling_mode.get_process (readLine raw trdt) with
        | .error e => (Except.error e : Except PyError (PyVal × Transport))
        | .ok w => .ok (w, ⟨tw ++ ["OPA" ++ twt], rest2, twt, trdt⟩)) =
          .ok (v, t2) := h
      cases hg : HP8350X.leveling_mode.get_process (readLine raw trdt) with
      | error e => rw [hg] at h2; simp at h2
      | ok w =>
        rw [hg] at h2
        simp at h2
        obtain ⟨m, hm⟩ := leveling_get_process_ok (readLine raw trdt) w hg
        exact ⟨m, by rw [← h2.1]; exact hm⟩

/-- Witness for C10 at the reply line `"7"`: the parsed value 7 has no
`LevelingMode` member, so the read raises `ValueError`. -/
theorem C10_witness :
    HP8350X.leveling_mode.get_process "7" = .error .valueError :=
  (C10_enum_get_raises "7" 7).1 rfl (by decide) (by decide) (by decide)

end PyMeasure
